import Mathlib

/-!
Verification of the vCard/VCF parsing core of the sms-backup-and-restore-exporter
repository (files `src/vcf_field_parser.py`, `src/vcard_multimedia_helper.py`,
`src/contacts_vcard_extractor.py`).

Python strings are modelled as `List Char` (`PyStr`); Python's `str.split(sep)`
for the single-character separators used by the code (`;`, `:`, `=`, `,`) is
`splitChar`; `str.strip()` is `pyStrip`; `sep.join` is `pyJoin`; `sorted` is
`pySorted` (insertion sort by the code-point lexicographic order, which agrees
with Python's string comparison; on `List Char` any sort by this total order has
a unique result, so stability is irrelevant).

Python exceptions are modelled with `Except PyErr`: `IndexError` from list
indexing, `ValueError` from tuple-unpacking mismatch, `KeyError` from dict
lookup, and the various explicitly raised `ValueError`s get their own
constructors so that the error classes of the spec's taxonomy can be told apart.

Python dicts are modelled as insertion-ordered association lists
(`List (key × value)`); `d[k] = v` is `dictSet` (replacing in place if the key
exists, appending otherwise) and `d.update(d2)` is `dictUpdate`, matching
CPython's ordered-dict semantics.  File lines are modelled without their
trailing newline (the code only ever strips them or tests prefixes/membership,
for which the newline is irrelevant).
-/

abbrev PyStr := List Char

def str (s : String) : PyStr := s.data

/-- Python `s.strip()`: remove leading and trailing whitespace. -/
def pyStrip (s : PyStr) : PyStr :=
  ((s.dropWhile (·.isWhitespace)).reverse.dropWhile (·.isWhitespace)).reverse

/-- Auxiliary for `splitChar`: returns (segment up to the first separator,
remaining segments). -/
def splitCharAux (c : Char) : List Char → List Char × List (List Char)
  | [] => ([], [])
  | a :: s =>
    let r := splitCharAux c s
    if a = c then ([], r.1 :: r.2) else (a :: r.1, r.2)

/-- Python `s.split(c)` for a single-character separator `c` (no maxsplit):
`"".split(c) = [""]`, `":".split(":") = ["", ""]`, etc.  Never returns `[]`. -/
def splitChar (c : Char) (s : PyStr) : List PyStr :=
  (splitCharAux c s).1 :: (splitCharAux c s).2

/-- Python `sep.join(xs)`. -/
def pyJoin (sep : PyStr) : List PyStr → PyStr
  | [] => []
  | [x] => x
  | x :: xs => x ++ sep ++ pyJoin sep xs

/-- Python `s.startswith(pat)`. -/
def pyStartsWith (s pat : PyStr) : Bool := pat.isPrefixOf s

/-- Python string comparison `a <= b`: code-point lexicographic order. -/
def strLe : PyStr → PyStr → Bool
  | [], _ => true
  | _ :: _, [] => false
  | a :: s, b :: t => if a = b then strLe s t else decide (a < b)

def strLeP : PyStr → PyStr → Prop := fun a b => strLe a b = true

instance : DecidableRel strLeP := fun a b => inferInstanceAs (Decidable (strLe a b = true))

/-- Python `sorted(xs)` for a list of strings. -/
def pySorted (xs : List PyStr) : List PyStr := List.insertionSort strLeP xs

/-- The Python exceptions the modelled code can raise. -/
inductive PyErr : Type where
  /-- `IndexError` from an out-of-range list index. -/
  | indexError : PyErr
  /-- `ValueError` from a tuple-unpacking arity mismatch. -/
  | unpackError : PyErr
  /-- `KeyError` from a missing dict key. -/
  | keyError : PyErr
  /-- `ValueError` raised by `helper_match_subkey_types_and_values` when the
  number of values does not match the number of subkey names. -/
  | subfieldCountError (found required : Nat) : PyErr
  /-- `ValueError` raised by `parse_multimedia_tag` when the segment count
  matches none of the recognised shapes. -/
  | multimediaFormatError (line : PyStr) : PyErr
  /-- `ValueError`: `BEGIN:VCARD` while already inside a record. -/
  | beginInsideRecord : PyErr
  /-- `ValueError`: `END:VCARD` without a matching `BEGIN:VCARD`. -/
  | endOutsideRecord : PyErr
  /-- `ValueError`: end of file while still inside a record. -/
  | unterminatedRecord : PyErr
  /-- `ValueError` raised by `extract_key_multimedia` when no file extension
  can be determined. -/
  | extensionError (key : PyStr) : PyErr
deriving DecidableEq, Repr

/-- The structural (`BEGIN`/`END` nesting) errors of the assembler, as opposed
to per-field parse errors and multimedia-resource errors. -/
def isStructuralError : PyErr → Bool
  | .beginInsideRecord => true
  | .endOutsideRecord => true
  | .unterminatedRecord => true
  | _ => false

deriving instance DecidableEq for Except

/-- The value stored for one tag of a parsed contact: a scalar string, a tuple
of strings (CATEGORIES), or a sub-label-to-string mapping. -/
inductive FieldVal : Type where
  | s (v : PyStr) : FieldVal
  | tup (vs : List PyStr) : FieldVal
  | dict (d : List (PyStr × PyStr)) : FieldVal
deriving DecidableEq, Repr

/-- A parsed contact: insertion-ordered mapping from tag to field value. -/
abbrev Contact := List (PyStr × FieldVal)

/-- Python `d[k]` as an `Option` (insertion-ordered association list). -/
def dictGet {β : Type} (d : List (PyStr × β)) (k : PyStr) : Option β :=
  (d.find? (fun p => decide (p.1 = k))).map (·.2)

/-- Python `d[k] = v`: replace in place if present, append otherwise. -/
def dictSet {β : Type} (d : List (PyStr × β)) (k : PyStr) (v : β) : List (PyStr × β) :=
  if (d.find? (fun p => decide (p.1 = k))).isSome then
    d.map (fun p => if p.1 = k then (k, v) else p)
  else d ++ [(k, v)]

/-- Python `d.update(info)`. -/
def dictUpdate {β : Type} (d info : List (PyStr × β)) : List (PyStr × β) :=
  info.foldl (fun acc p => dictSet acc p.1 p.2) d

/-! ## `src/vcf_field_parser.py` -/

/-- `SIMPLE_KEYS`: tags parsed by `parse_simple_tag`, in source order. -/
def SIMPLE_KEYS : List PyStr :=
  [str "AGENT", str "ANNIVERSARY", str "BDAY", str "CALADRURI", str "CALURI",
   str "CLASS", str "FBURL", str "FN", str "GENDER", str "KIND", str "LANG",
   str "MAILER", str "NICKNAME", str "NOTE", str "PRODID", str "PROFILE",
   str "REV", str "ROLE", str "SORT-STRING", str "SOURCE", str "TITLE",
   str "TZ", str "URL", str "VERSION", str "XML"]

/-- `parse_simple_tag`: `return "".join(file_line.split(":")[1:])`. -/
def parse_simple_tag (file_line : PyStr) : PyStr :=
  pyJoin [] ((splitChar ':' file_line).drop 1)

/-- `parse_address_tag`. -/
def parse_address_tag (address_line : PyStr) : Except PyErr (List (PyStr × PyStr)) :=
  let addr_line_split := splitChar ';' address_line
  -- iterate backwards, collecting elements until one containing ':' is found
  let address_components_reverse := addr_line_split.reverse.takeWhile (fun e => decide (¬ ':' ∈ e))
  let address := pyJoin (str " ") address_components_reverse.reverse
  match addr_line_split with
  | _ :: e1 :: _ =>
    if pyStartsWith e1 (str "TYPE") then
      -- addr_line_split[1].split("=")[1].split(":")[0]
      match (splitChar '=' e1).get? 1 with
      | none => .error .indexError
      | some t => .ok [((splitChar ':' t).headI, pyStrip address)]
    else .ok [(e1, pyStrip address)]
  | _ => .ok [([], pyStrip address)]

/-- The value extracted by `parse_categories_tag`:
`"".join(category_line.split(":")[1:])`. -/
def categoriesValue (category_line : PyStr) : PyStr :=
  pyJoin [] ((splitChar ':' category_line).drop 1)

/-- `parse_categories_tag`: `tuple(sorted(value.split(",")))`. -/
def parse_categories_tag (category_line : PyStr) : List PyStr :=
  pySorted (splitChar ',' (categoriesValue category_line))

/-- `parse_clientpidmap_tag`. -/
def parse_clientpidmap_tag (clientpidmap_line : PyStr) : Except PyErr (List (PyStr × PyStr)) :=
  let clientpidmap_split := splitChar ';' clientpidmap_line
  match clientpidmap_split.get? 1 with
  | none => .error .indexError
  | some urn =>
    match (splitChar ':' clientpidmap_split.headI).get? 1 with
    | none => .error .indexError
    | some pid_source_identifier => .ok [(pid_source_identifier, urn)]

/-- `helper_match_generic_label_and_types`. -/
def helper_match_generic_label_and_types (text_line : PyStr) : Except PyErr (List (PyStr × PyStr)) :=
  let text_line_split := splitChar ':' text_line
  let data := pyJoin (str ":") (text_line_split.drop 1)
  if '=' ∈ text_line_split.headI then
    match (splitChar '=' text_line_split.headI).get? 1 with
    | none => .error .indexError
    | some data_type => .ok [(data_type, data)]
  else
    match (splitChar ';' text_line_split.headI).get? 1 with
    | none => .error .indexError
    | some data_type => .ok [(data_type, data)]

/-- `parse_email_tag`. -/
def parse_email_tag (email_line : PyStr) : Except PyErr (List (PyStr × PyStr)) :=
  helper_match_generic_label_and_types email_line

/-- `parse_geo_tag`. -/
def parse_geo_tag (geo_line : PyStr) : Except PyErr (List (PyStr × PyStr)) :=
  match splitChar ':' geo_line with
  | [_, g1] =>
    -- vCard 2.1/3.0: lat, lon = geo_line_split[1].split(";")
    match splitChar ';' g1 with
    | [lat, lon] => .ok [(str "latitude", lat), (str "longitude", lon)]
    | _ => .error .unpackError
  | [_, _, g2] =>
    -- vCard 4.0: lat, lon = geo_line_split[2].split(",")
    match splitChar ',' g2 with
    | [lat, lon] => .ok [(str "latitude", lat), (str "longitude", lon)]
    | _ => .error .unpackError
  | _ => .ok [(str "latitude", []), (str "longitude", [])]

/-- `parse_instant_messenger_handle_tag`:
`_, impp_type, impp_handle = impp_line.split(":")`. -/
def parse_instant_messenger_handle_tag (impp_line : PyStr) : Except PyErr (List (PyStr × PyStr)) :=
  match splitChar ':' impp_line with
  | [_, impp_type, impp_handle] => .ok [(str "type", impp_type), (str "handle", impp_handle)]
  | _ => .error .unpackError

/-- `parse_mailing_label_tag`. -/
def parse_mailing_label_tag (label_line : PyStr) : Except PyErr (List (PyStr × PyStr)) :=
  helper_match_generic_label_and_types label_line

/-- `parse_member_tag`. -/
def parse_member_tag (member_line : PyStr) : Except PyErr (List (PyStr × PyStr)) :=
  match splitChar ':' member_line with
  | _ :: member_id_type :: rest => .ok [(member_id_type, pyJoin (str ":") rest)]
  | _ => .error .indexError

/-- `helper_match_subkey_types_and_values`. -/
def helper_match_subkey_types_and_values (subkey_names : List PyStr) (values : List PyStr)
    (contains_tag_name : Bool) : Except PyErr (List (PyStr × PyStr)) :=
  let stripped : Except PyErr (List PyStr) :=
    if contains_tag_name then
      -- values[0] = values[0].split(":")[1]
      match values with
      | [] => .error .indexError
      | v :: vs =>
        match (splitChar ':' v).get? 1 with
        | none => .error .indexError
        | some x => .ok (x :: vs)
    else .ok values
  match stripped with
  | .error e => .error e
  | .ok vals =>
    if subkey_names.length ≠ vals.length then
      .error (.subfieldCountError vals.length subkey_names.length)
    else
      .ok ((subkey_names.zip vals).filter (fun p => decide (¬ p.2 = [])))

/-- `parse_name_tag`. -/
def parse_name_tag (name_line : PyStr) : Except PyErr (List (PyStr × PyStr)) :=
  helper_match_subkey_types_and_values
    [str "family_name", str "given_name", str "additional_middle_names",
     str "honorific_prefixes", str "honorific_suffixes"]
    (splitChar ';' name_line) true

/-- `return_name_tag_formatted`: concatenate the values in dict order. -/
def return_name_tag_formatted (name_tag_field : List (PyStr × PyStr)) : PyStr :=
  name_tag_field.foldl (fun name p => name ++ p.2) []

/-- `parse_organization_tag`. -/
def parse_organization_tag (organization_line : PyStr) : Except PyErr FieldVal :=
  let organization_line_split := splitChar ';' organization_line
  if organization_line_split.length = 1 then
    match (splitChar ':' organization_line).get? 1 with
    | none => .error .indexError
    | some v => .ok (.s v)
  else
    (helper_match_subkey_types_and_values
      [str "organization_name", str "collective_organization_name",
       str "organizational_unit_name"]
      organization_line_split true).map .dict

/-- `parse_related_tag`. -/
def parse_related_tag (related_line : PyStr) : Except PyErr (List (PyStr × PyStr)) :=
  helper_match_generic_label_and_types related_line

/-- `parse_telephone_tag`. -/
def parse_telephone_tag (telephone_textline : PyStr) : Except PyErr (List (PyStr × PyStr)) :=
  helper_match_generic_label_and_types telephone_textline

/-- `parse_uuid_tag`. -/
def parse_uuid_tag (uuid_textline : PyStr) : Except PyErr (List (PyStr × PyStr)) :=
  match splitChar ':' uuid_textline with
  | _ :: uid_type :: rest => .ok [(uid_type, pyJoin (str ":") rest)]
  | _ => .error .indexError

/-! ## `src/vcard_multimedia_helper.py` -/

/-- `get_advanced_key_names()`: multimedia field names. -/
def advancedKeyNames : List PyStr := [str "KEY", str "LOGO", str "PHOTO", str "SOUND"]

/-- `get_multimedia_tag_list()`: the fixed 4-slot multimedia mapping keys. -/
def multimediaTagList : List PyStr :=
  [str "tag_type", str "tag_data", str "tag_url", str "tag_mime_type"]

/-- The body of `parse_multimedia_tag` up to the final call of
`helper_match_subkey_types_and_values`: computes the quadruple
`(tag_type, tag_data, tag_url, tag_mime_type)` (initialised to `""`). -/
def multimediaQuad (multimedia_tag_line : PyStr) : Except PyErr (PyStr × PyStr × PyStr × PyStr) :=
  match splitChar ';' multimedia_tag_line with
  | [_, s1, s2] =>
    if '=' ∈ s1 then
      if s1 = str "ENCODING=BASE64" then
        -- case 2a: tag_type, tag_data = split[2].split(":")
        match splitChar ':' s2 with
        | [tag_type, tag_data] => .ok (tag_type, tag_data, [], [])
        | _ => .error .unpackError
      else
        -- case 4: tag_type = split[1].split("=")[1]; tag_data = split[2].split(":")[1]
        match (splitChar '=' s1).get? 1 with
        | none => .error .indexError
        | some tag_type =>
          match (splitChar ':' s2).get? 1 with
          | none => .error .indexError
          | some tag_data => .ok (tag_type, tag_data, [], [])
    else
      -- case 2: tag_type = split[2].split(":")[0]; tag_data = split[-1].split(":")[1]
      match (splitChar ':' s2).get? 1 with
      | none => .error .indexError
      | some tag_data => .ok ((splitChar ':' s2).headI, tag_data, [], [])
  | [s0, s1] =>
    if pyStartsWith s1 (str "TYPE") then
      -- case 3: decl = split[1].split(":"); tag_type = decl[0].split("=")[1]; tag_url = decl[1]
      match (splitChar '=' (splitChar ':' s1).headI).get? 1 with
      | none => .error .indexError
      | some tag_type =>
        match (splitChar ':' s1).get? 1 with
        | none => .error .indexError
        | some tag_url => .ok (tag_type, [], tag_url, [])
    else if pyStartsWith s1 (str "MEDIATYPE") then
      -- case 5: decl = split[1].split(":"); tag_mime_type = decl[0].split("=")[1]; tag_url = decl[1]
      match (splitChar '=' (splitChar ':' s1).headI).get? 1 with
      | none => .error .indexError
      | some tag_mime_type =>
        match (splitChar ':' s1).get? 1 with
        | none => .error .indexError
        | some tag_url => .ok ([], [], tag_url, tag_mime_type)
    else if pyStartsWith s1 (str "base64") then
      -- case 6: tag_mime_type = split[0].split(":")[-1]; tag_data = split[1].split(",")[1]
      match (splitChar ',' s1).get? 1 with
      | none => .error .indexError
      | some tag_data => .ok ([], tag_data, [], (splitChar ':' s0).getLast!)
    else
      -- case 1: ts = split[1].split(":"); tag_type = ts[0]; tag_url = ":".join(ts[1:])
      .ok ((splitChar ':' s1).headI, [], pyJoin (str ":") ((splitChar ':' s1).drop 1), [])
  | _ => .error (.multimediaFormatError multimedia_tag_line)

/-- `parse_multimedia_tag`: compute the quadruple, then normalise it through
`helper_match_subkey_types_and_values` with `contains_tag_name=False`. -/
def parse_multimedia_tag (multimedia_tag_line : PyStr) : Except PyErr (List (PyStr × PyStr)) :=
  match multimediaQuad multimedia_tag_line with
  | .error e => .error e
  | .ok (tag_type, tag_data, tag_url, tag_mime_type) =>
    helper_match_subkey_types_and_values multimediaTagList
      [tag_type, tag_data, tag_url, tag_mime_type] false

/-- One file write performed by `decode_multimedia_data_field` (the I/O itself —
Base64 decoding / HTTP fetch / disk write — is an external collaborator; the
model records the planned write: target filename, whether the payload is a URL
to fetch or Base64 data to decode, and the payload string). -/
structure MediaWrite : Type where
  filename : PyStr
  is_url : Bool
  data_or_url : PyStr
deriving DecidableEq, Repr

/-- The per-key body of the loop of `extract_key_multimedia`, folded over
`get_advanced_key_names()`.  In this codebase every multimedia entry of a
contact is a sub-dict produced by `parse_multimedia_tag`, so the contact value
is projected to its dict form. -/
def fvDict : FieldVal → List (PyStr × PyStr)
  | .dict d => d
  | _ => []

def extractKeysAux (contact : Contact) (base_filename : PyStr) :
    List PyStr → Except PyErr (List MediaWrite)
  | [] => .ok []
  | key_name :: ks =>
    match dictGet contact key_name with
    | none => extractKeysAux contact base_filename ks
    | some fv =>
      let md := fvDict fv
      -- determine file extension from tag_type, else from the MIME type
      let ext : Except PyErr PyStr :=
        match dictGet md (str "tag_type") with
        | some t => .ok t
        | none =>
          match dictGet md (str "tag_mime_type") with
          | some mime_type =>
            -- file_extension = mime_type.split("/")[1]
            match (splitChar '/' mime_type).get? 1 with
            | some e => .ok e
            | none => .error .indexError
          | none => .error (.extensionError key_name)
      match ext with
      | .error e => .error e
      | .ok file_extension =>
        -- clean_base = base_filename.replace(".", ""); filename = clean_base.ext
        let clean_base := base_filename.filter (fun c => decide (¬ c = '.'))
        let filename := clean_base ++ '.' :: file_extension
        let is_url := (dictGet md (str "tag_url")).isSome
        let payload : Except PyErr PyStr :=
          if is_url then
            match dictGet md (str "tag_url") with
            | some u => .ok u
            | none => .error .keyError
          else
            match dictGet md (str "tag_data") with
            | some dta => .ok dta
            | none => .error .keyError
        match payload with
        | .error e => .error e
        | .ok data_or_url =>
          match extractKeysAux contact base_filename ks with
          | .error e => .error e
          | .ok ws => .ok (⟨filename, is_url, data_or_url⟩ :: ws)

/-- `extract_key_multimedia`. -/
def extract_key_multimedia (contact : Contact) (base_filename : PyStr) :
    Except PyErr (List MediaWrite) :=
  extractKeysAux contact base_filename advancedKeyNames

/-! ## `src/contacts_vcard_extractor.py` -/

/-- `FIELD_PARSERS`: the dispatch table, in source (insertion) order.  The
differing Python return types (dict / tuple / str-or-dict) are injected into
`FieldVal`. -/
def fieldParserTable : List (PyStr × (PyStr → Except PyErr FieldVal)) :=
  [(str "ADR", fun l => (parse_address_tag l).map .dict),
   (str "CATEGORIES", fun l => .ok (.tup (parse_categories_tag l))),
   (str "CLIENTPIDMAP", fun l => (parse_clientpidmap_tag l).map .dict),
   (str "EMAIL", fun l => (parse_email_tag l).map .dict),
   (str "GEO", fun l => (parse_geo_tag l).map .dict),
   (str "IMPP", fun l => (parse_instant_messenger_handle_tag l).map .dict),
   (str "LABEL", fun l => (parse_mailing_label_tag l).map .dict),
   (str "MEMBER", fun l => (parse_member_tag l).map .dict),
   (str "N", fun l => (parse_name_tag l).map .dict),
   (str "ORG", parse_organization_tag),
   (str "RELATED", fun l => (parse_related_tag l).map .dict),
   (str "TEL", fun l => (parse_telephone_tag l).map .dict),
   (str "UID", fun l => (parse_uuid_tag l).map .dict)]

/-- `parse_vcard_line`: simple keys first, then the dispatch table, then the
multimedia keys (tag-name prefix removed), else no field. -/
def parse_vcard_line (file_line : PyStr) : Except PyErr Contact :=
  match SIMPLE_KEYS.find? (fun key => pyStartsWith file_line key) with
  | some matching_key => .ok [(matching_key, .s (parse_simple_tag file_line))]
  | none =>
    match fieldParserTable.find? (fun p => pyStartsWith file_line p.1) with
    | some p => (p.2 file_line).map (fun v => [(p.1, v)])
    | none =>
      match advancedKeyNames.find? (fun key => pyStartsWith file_line key) with
      | some key => (parse_multimedia_tag (file_line.drop key.length)).map
          (fun d => [(key, .dict d)])
      | none => .ok []

/-- Projection used by `_get_contact_identifier` on the `FN` entry (always a
scalar string in this codebase). -/
def fvStr : FieldVal → PyStr
  | .s v => v
  | _ => []

/-- `_get_contact_identifier`.  `_generate_random_filename()` is external
randomness; the model takes the random name as the parameter `randName`. -/
def getContactIdentifier (contact : Contact) (randName : PyStr) : PyStr :=
  match dictGet contact (str "N") with
  | some fv => return_name_tag_formatted (fvDict fv)
  | none =>
    match dictGet contact (str "FN") with
    | some fv => fvStr fv
    | none => randName

/-- `os.path.join(output_dir, base)` in the POSIX normal case (relative
second component). -/
def pyPathJoin (dir base : PyStr) : PyStr := dir ++ '/' :: base

/-- `generate_multimedia_of_contact`. -/
def generate_multimedia_of_contact (contact : Contact) (output_dir randName : PyStr) :
    Except PyErr (List MediaWrite) :=
  extract_key_multimedia contact (pyPathJoin output_dir (getContactIdentifier contact randName))

/-- The stop condition of the continuation-folding loop of
`_parse_multiline_multimedia`: a blank line or a line containing `:` ends the
fold (that line is not consumed). -/
def foldStops (line : PyStr) : Bool := (pyStrip line).isEmpty || decide (':' ∈ line)

/-- State of the line scanner of `_parse_vcf_file`.  `pending` carries the
continuation-folding accumulator of `_parse_multiline_multimedia`: the Python
code folds eagerly inside one loop iteration and then jumps `line_num` past the
consumed lines; the model instead consumes the folded lines one at a time
through the same scanner, parsing the accumulated tag line when the stop
condition fires (or at end of file) — the sequence of parses, updates, raised
errors, and the final result are identical. -/
structure LoopState : Type where
  pending : Option PyStr
  inC : Bool
  hm : Bool
  cur : Contact
  acc : List Contact
deriving Repr

/-- `STEP` of `_parse_vcf_file` for one line, pending fold already resolved:
the `BEGIN:VCARD` / `END:VCARD` / in-record / outside-record dispatch. -/
def stepNormal (output_dir randName : PyStr) (st : LoopState) (line_content : PyStr) :
    Except PyErr LoopState :=
  let stripped_line := pyStrip line_content
  if stripped_line = str "BEGIN:VCARD" then
    if st.inC then .error .beginInsideRecord
    else .ok ⟨none, true, false, [], st.acc⟩
  else if stripped_line = str "END:VCARD" then
    if st.inC then
      match (if st.hm then (generate_multimedia_of_contact st.cur output_dir randName).map
                (fun _ => ()) else .ok ()) with
      | .error e => .error e
      | .ok _ => .ok ⟨none, false, false, [], st.acc ++ [st.cur]⟩
    else .error .endOutsideRecord
  else if st.inC then
    if advancedKeyNames.any (fun key => pyStartsWith line_content key) then
      -- start of a (possibly multiline) multimedia field
      .ok ⟨some (pyStrip line_content), st.inC, true, st.cur, st.acc⟩
    else
      match parse_vcard_line stripped_line with
      | .error e => .error e
      | .ok info => .ok ⟨none, st.inC, st.hm, dictUpdate st.cur info, st.acc⟩
  else .ok st

/-- One scanner step of `_parse_vcf_file`: first resolve a pending
continuation fold, then dispatch the line. -/
def stepLine (output_dir randName : PyStr) (st : LoopState) (line_content : PyStr) :
    Except PyErr LoopState :=
  match st.pending with
  | some mmAcc =>
    if foldStops line_content then
      match parse_vcard_line (pyStrip mmAcc) with
      | .error e => .error e
      | .ok info =>
        stepNormal output_dir randName
          ⟨none, st.inC, st.hm, dictUpdate st.cur info, st.acc⟩ line_content
    else .ok ⟨some (mmAcc ++ pyStrip line_content), st.inC, st.hm, st.cur, st.acc⟩
  | none => stepNormal output_dir randName st line_content

/-- The scanner loop of `_parse_vcf_file` over the file's lines. -/
def vcfLoop (output_dir randName : PyStr) (st : LoopState) : List PyStr →
    Except PyErr (List Contact)
  | [] =>
    match st.pending with
    | some mmAcc =>
      -- fold ran to end of file: parse the accumulated line, then EOF check
      match parse_vcard_line (pyStrip mmAcc) with
      | .error e => .error e
      | .ok _ => if st.inC then .error .unterminatedRecord else .ok st.acc
    | none => if st.inC then .error .unterminatedRecord else .ok st.acc
  | line_content :: rest =>
    match stepLine output_dir randName st line_content with
    | .error e => .error e
    | .ok st' => vcfLoop output_dir randName st' rest

/-- `_parse_vcf_file` on the file's lines (trailing newlines stripped). -/
def parseVcfFile (output_dir randName : PyStr) (lines : List PyStr) :
    Except PyErr (List Contact) :=
  vcfLoop output_dir randName ⟨none, false, false, [], []⟩ lines

/-! ## Record-structure notions used to state the assembler claims -/

/-- Classify a line as a record-boundary marker after stripping:
`some true` for `BEGIN:VCARD`, `some false` for `END:VCARD`. -/
def markerOf (line : PyStr) : Option Bool :=
  if pyStrip line = str "BEGIN:VCARD" then some true
  else if pyStrip line = str "END:VCARD" then some false
  else none

/-- The sequence of record-boundary markers of a file. -/
def markers (lines : List PyStr) : List Bool := lines.filterMap markerOf

/-- Depth-1 nesting check of a marker sequence, starting inside (`true`) or
outside (`false`) a record: markers must alternate BEGIN, END, BEGIN, END, …
and end outside a record. -/
def nestOK : Bool → List Bool → Bool
  | false, [] => true
  | true, [] => false
  | false, b :: r => b && nestOK true r
  | true, b :: r => !b && nestOK false r

/-- A well-formed file: any non-marker junk lines outside records, and properly
delimited `BEGIN:VCARD` … `END:VCARD` records whose bodies contain no marker
lines; the second index lists the record bodies in file order. -/
inductive FileShape : List PyStr → List (List PyStr) → Prop where
  | nil : FileShape [] []
  | junk (l : PyStr) (ls : List PyStr) (rs : List (List PyStr))
      (hl : markerOf l = none) (h : FileShape ls rs) : FileShape (l :: ls) rs
  | record (lb : PyStr) (body : List PyStr) (le : PyStr) (ls : List PyStr)
      (rs : List (List PyStr))
      (hb : pyStrip lb = str "BEGIN:VCARD") (he : pyStrip le = str "END:VCARD")
      (hbody : ∀ x ∈ body, markerOf x = none) (h : FileShape ls rs) :
      FileShape (lb :: (body ++ le :: ls)) (body :: rs)

/-- Scanner state restricted to one record body (no markers, no result list). -/
structure BodyState : Type where
  pending : Option PyStr
  hm : Bool
  cur : Contact
deriving Repr

/-- In-record processing of one non-marker line (mirrors the in-record branch
of `stepNormal`). -/
def bodyStepNormal (b : BodyState) (line_content : PyStr) : Except PyErr BodyState :=
  if advancedKeyNames.any (fun key => pyStartsWith line_content key) then
    .ok ⟨some (pyStrip line_content), true, b.cur⟩
  else
    match parse_vcard_line (pyStrip line_content) with
    | .error e => .error e
    | .ok info => .ok ⟨none, b.hm, dictUpdate b.cur info⟩

/-- One in-record scanner step (mirrors `stepLine` for non-marker lines). -/
def bodyStep (b : BodyState) (line_content : PyStr) : Except PyErr BodyState :=
  match b.pending with
  | some mmAcc =>
    if foldStops line_content then
      match parse_vcard_line (pyStrip mmAcc) with
      | .error e => .error e
      | .ok info => bodyStepNormal ⟨none, b.hm, dictUpdate b.cur info⟩ line_content
    else .ok ⟨some (mmAcc ++ pyStrip line_content), b.hm, b.cur⟩
  | none => bodyStepNormal b line_content

/-- Run the in-record scanner over a record body. -/
def bodyRun (b : BodyState) : List PyStr → Except PyErr BodyState
  | [] => .ok b
  | l :: ls =>
    match bodyStep b l with
    | .error e => .error e
    | .ok b' => bodyRun b' ls

/-- What happens to a record's state when its `END:VCARD` line is reached:
resolve a pending continuation fold, then extract multimedia if any multimedia
tag was seen; the assembled contact is the result. -/
def finalizeBody (output_dir randName : PyStr) (b : BodyState) : Except PyErr Contact :=
  let folded : Except PyErr Contact :=
    match b.pending with
    | some mmAcc =>
      match parse_vcard_line (pyStrip mmAcc) with
      | .error e => .error e
      | .ok info => .ok (dictUpdate b.cur info)
    | none => .ok b.cur
  match folded with
  | .error e => .error e
  | .ok cur =>
    match (if b.hm then (generate_multimedia_of_contact cur output_dir randName).map
              (fun _ => ()) else .ok ()) with
    | .error e => .error e
    | .ok _ => .ok cur

/-- Assembly of a single record from its body lines. -/
def assembleRecord (output_dir randName : PyStr) (body : List PyStr) : Except PyErr Contact :=
  match bodyRun ⟨none, false, []⟩ body with
  | .error e => .error e
  | .ok b => finalizeBody output_dir randName b

/-- Assemble every record of a list, failing on the first error. -/
def assembleAll (output_dir randName : PyStr) : List (List PyStr) → Except PyErr (List Contact)
  | [] => .ok []
  | r :: rs =>
    match assembleRecord output_dir randName r with
    | .error e => .error e
    | .ok c =>
      match assembleAll output_dir randName rs with
      | .error e => .error e
      | .ok cs => .ok (c :: cs)

/-! ## Basic lemmas about the string model -/

theorem splitCharAux_not_mem (c : Char) (s : PyStr) (h : ¬ c ∈ s) :
    splitCharAux c s = (s, []) := by
  induction s with
  | nil => rfl
  | cons a t ih =>
    simp only [List.mem_cons, not_or] at h
    simp [splitCharAux, ih h.2, if_neg (h.1 ∘ Eq.symm), h.1]

theorem splitChar_not_mem (c : Char) (s : PyStr) (h : ¬ c ∈ s) :
    splitChar c s = [s] := by
  simp [splitChar, splitCharAux_not_mem c s h]

theorem splitCharAux_append (c : Char) (a b : PyStr) (h : ¬ c ∈ a) :
    splitCharAux c (a ++ c :: b) = (a, (splitCharAux c b).1 :: (splitCharAux c b).2) := by
  induction a with
  | nil => simp [splitCharAux]
  | cons x t ih =>
    simp only [List.mem_cons, not_or] at h
    have hx : ¬ x = c := fun hx => h.1 hx.symm
    simp [splitCharAux, ih h.2, hx]

theorem splitChar_append (c : Char) (a b : PyStr) (h : ¬ c ∈ a) :
    splitChar c (a ++ c :: b) = a :: splitChar c b := by
  simp [splitChar, splitCharAux_append c a b h]

theorem pyJoin_nil_eq_join (l : List PyStr) : pyJoin [] l = l.flatten := by
  induction l with
  | nil => rfl
  | cons x xs ih => cases xs <;> simp_all [pyJoin]

theorem join_splitChar (c : Char) (s : PyStr) :
    (splitChar c s).flatten = s.filter (fun x => decide (¬ x = c)) := by
  have aux : ∀ t : PyStr,
      (splitCharAux c t).1 ++ ((splitCharAux c t).2).flatten = t.filter (fun x => decide (¬ x = c)) := by
    intro t
    induction t with
    | nil => simp [splitCharAux]
    | cons a u ih =>
      by_cases h : a = c
      · subst h
        simp [splitCharAux, List.filter_cons, ih]
      · simp [splitCharAux, h, List.filter_cons, ih]
  simpa [splitChar] using aux s

theorem mem_of_mem_pyStrip {s : PyStr} {c : Char} (h : c ∈ pyStrip s) : c ∈ s := by
  unfold pyStrip at h
  rw [List.mem_reverse] at h
  have h1 : c ∈ (s.dropWhile (·.isWhitespace)).reverse :=
    (List.dropWhile_sublist _).subset h
  rw [List.mem_reverse] at h1
  exact (List.dropWhile_sublist _).subset h1

/-! ## Order lemmas for Python string sorting -/

theorem strLe_total (a b : PyStr) : strLe a b = true ∨ strLe b a = true := by
  induction a generalizing b with
  | nil => exact Or.inl rfl
  | cons c s ih =>
    cases b with
    | nil => exact Or.inr rfl
    | cons d t =>
      by_cases h : c = d
      · subst h
        simpa [strLe] using ih t
      · rcases lt_or_gt_of_ne h with hlt | hgt
        · exact Or.inl (by simp [strLe, h, hlt])
        · exact Or.inr (by simp [strLe, Ne.symm h, hgt])

theorem strLe_trans (a b c : PyStr) (hab : strLe a b = true) (hbc : strLe b c = true) :
    strLe a c = true := by
  induction a generalizing b c with
  | nil => rfl
  | cons x s ih =>
    cases b with
    | nil => simp [strLe] at hab
    | cons y t =>
      cases c with
      | nil => simp [strLe] at hbc
      | cons z u =>
        by_cases hxy : x = y
        · subst hxy
          by_cases hyz : x = z
          · subst hyz
            simp only [strLe, if_pos rfl] at hab hbc ⊢
            exact ih t u hab hbc
          · simp only [strLe, if_pos rfl] at hab
            simpa [strLe, hyz] using hbc
        · simp only [strLe, if_neg hxy, decide_eq_true_eq] at hab
          by_cases hyz : y = z
          · subst hyz
            simp [strLe, hxy, hab]
          · simp only [strLe, if_neg hyz, decide_eq_true_eq] at hbc
            have hxz : x < z := lt_trans hab hbc
            simp [strLe, ne_of_lt hxz, hxz]

theorem strLe_antisymm (a b : PyStr) (hab : strLe a b = true) (hba : strLe b a = true) :
    a = b := by
  induction a generalizing b with
  | nil =>
    cases b with
    | nil => rfl
    | cons y t => simp [strLe] at hba
  | cons x s ih =>
    cases b with
    | nil => simp [strLe] at hab
    | cons y t =>
      by_cases hxy : x = y
      · subst hxy
        simp only [strLe, if_pos rfl] at hab hba
        rw [ih t hab hba]
      · simp only [strLe, if_neg hxy, decide_eq_true_eq] at hab
        simp only [strLe, if_neg (Ne.symm hxy), decide_eq_true_eq] at hba
        exact absurd hba (lt_asymm hab)

instance : IsTotal PyStr strLeP := ⟨strLe_total⟩

instance : IsTrans PyStr strLeP := ⟨strLe_trans⟩

instance : IsAntisymm PyStr strLeP := ⟨strLe_antisymm⟩

theorem pySorted_sorted (xs : List PyStr) : List.Sorted strLeP (pySorted xs) :=
  List.sorted_insertionSort strLeP xs

theorem pySorted_perm (xs : List PyStr) : (pySorted xs).Perm xs :=
  List.perm_insertionSort strLeP xs

theorem pySorted_eq_of_perm {xs ys : List PyStr} (h : xs.Perm ys) :
    pySorted xs = pySorted ys :=
  List.eq_of_perm_of_sorted ((pySorted_perm xs).trans (h.trans (pySorted_perm ys).symm))
    (pySorted_sorted xs) (pySorted_sorted ys)

/-! ## Claim C1 — simple-tag round trip -/

/-- C1 (code bug): the claim (and `parse_simple_tag`'s own docstring example)
says values containing colons are returned with the colons preserved, but the
code joins the colon-split segments with the empty string, so the internal
colons of `URL:http://example.com/path` are dropped: the parser returns
`http//example.com/path`, not `http://example.com/path`. -/
theorem parse_simple_tag_drops_colons :
    parse_simple_tag (str "URL:http://example.com/path") = str "http//example.com/path" ∧
    parse_vcard_line (str "URL:http://example.com/path") =
      .ok [(str "URL", .s (str "http//example.com/path"))] ∧
    str "http//example.com/path" ≠ str "http://example.com/path" := by
  refine ⟨by decide, by decide, by decide⟩

/-! ## Claim C8 — name parsing and formatting -/

/-- C8 (confirmed): `N:Kennedy;John;F;;` parses to exactly the three non-empty
name components (tag prefix stripped from the first), and formatting that
mapping concatenates them to `KennedyJohnF`. -/
theorem name_kennedy_roundtrip :
    parse_name_tag (str "N:Kennedy;John;F;;") =
      .ok [(str "family_name", str "Kennedy"), (str "given_name", str "John"),
           (str "additional_middle_names", str "F")] ∧
    parse_vcard_line (str "N:Kennedy;John;F;;") =
      .ok [(str "N", .dict [(str "family_name", str "Kennedy"),
           (str "given_name", str "John"), (str "additional_middle_names", str "F")])] ∧
    return_name_tag_formatted
      [(str "family_name", str "Kennedy"), (str "given_name", str "John"),
       (str "additional_middle_names", str "F")] = str "KennedyJohnF" := by
  refine ⟨by decide, by decide, by decide⟩

/-! ## Claim C2 — data-URI multimedia form -/

/-- C2 counterexample: on `PHOTO:data:image/png;base64,AAAA` the parser stores
the full MIME string `image/png` as `tag_mime_type`, not `png` as the claim
states. -/
theorem photo_data_uri_mime_is_full_string :
    parse_vcard_line (str "PHOTO:data:image/png;base64,AAAA") =
      .ok [(str "PHOTO", .dict [(str "tag_data", str "AAAA"),
           (str "tag_mime_type", str "image/png")])] ∧
    str "image/png" ≠ str "png" := by
  refine ⟨by decide, by decide⟩

/-! ## Claim C3 — tag_data / tag_url exclusivity -/

/-- C3 counterexample: `parse_multimedia_tag` can return a mapping containing
neither `tag_data` nor `tag_url` (here the Base64 payload is empty and is
filtered out as an empty slot), so "exactly one of the two" fails; the input
corresponds to the full line `PHOTO;ENCODING=BASE64;JPEG:`. -/
theorem multimedia_neither_data_nor_url :
    parse_multimedia_tag (str ";ENCODING=BASE64;JPEG:") = .ok [(str "tag_type", str "JPEG")] ∧
    dictGet [(str "tag_type", str "JPEG")] (str "tag_data") = none ∧
    dictGet [(str "tag_type", str "JPEG")] (str "tag_url") = none := by
  refine ⟨by decide, by decide, by decide⟩

/-! ## Claim C6 — extension derivation -/

/-- C6 counterexample: with `tag_mime_type = "a/b/c"` the decoder uses the
slash-segment at index 1 (`b`), not the last slash-delimited segment (`c`)
claimed by the spec: the planned write targets `x.b`, not `x.c`. -/
theorem extension_uses_second_not_last_segment :
    extract_key_multimedia
      [(str "PHOTO", .dict [(str "tag_mime_type", str "a/b/c"), (str "tag_data", str "AAAA")])]
      (str "x") = .ok [⟨str "x.b", false, str "AAAA"⟩] ∧
    str "x.b" ≠ str "x.c" := by
  refine ⟨by decide, by decide⟩

/-! ## Claim C9 — CATEGORIES sorting -/

/-- C9 counterexample: a CATEGORIES value containing a colon has its colons
dropped before comma-splitting (segments are rejoined with the empty string),
so `CATEGORIES:a:b` yields `("ab",)` instead of the claimed `("a:b",)`. -/
theorem categories_drop_colons :
    parse_categories_tag (str "CATEGORIES:a:b") = [str "ab"] ∧
    [str "ab"] ≠ [str "a:b"] := by
  refine ⟨by decide, by decide⟩

/-- C9 (amended): for every CATEGORIES line the result is the sorted tuple of
the comma-separated strings of the value *with its colons removed* (the code
rejoins the colon-split segments with the empty string); the result is always
sorted, and any two lines whose extracted comma-separated values are
permutations of each other parse to the identical tuple (in particular the
`swimmer,biker` example). -/
theorem categories_sorted_tuple :
    (∀ v : PyStr, parse_categories_tag (str "CATEGORIES" ++ ':' :: v) =
      pySorted (splitChar ',' (v.filter (fun c => decide (¬ c = ':'))))) ∧
    (∀ line : PyStr, List.Sorted strLeP (parse_categories_tag line)) ∧
    (∀ l1 l2 : PyStr,
      (splitChar ',' (categoriesValue l1)).Perm (splitChar ',' (categoriesValue l2)) →
      parse_categories_tag l1 = parse_categories_tag l2) ∧
    parse_categories_tag (str "CATEGORIES:swimmer,biker") = [str "biker", str "swimmer"] := by
  refine ⟨?_, ?_, ?_, by decide⟩
  · intro v
    have hval : categoriesValue (str "CATEGORIES" ++ ':' :: v) =
        v.filter (fun c => decide (¬ c = ':')) := by
      unfold categoriesValue
      rw [splitChar_append ':' (str "CATEGORIES") v (by decide), List.drop_succ_cons,
        List.drop_zero, pyJoin_nil_eq_join, join_splitChar]
    unfold parse_categories_tag
    rw [hval]
  · intro line
    exact pySorted_sorted _
  · intro l1 l2 h
    exact pySorted_eq_of_perm h

/-- C9 witness: the permutation-invariance part applied to a pair of concrete
permuted CATEGORIES lines. -/
theorem categories_sorted_tuple_witness :
    parse_categories_tag (str "CATEGORIES:swimmer,biker") =
      parse_categories_tag (str "CATEGORIES:biker,swimmer") :=
  categories_sorted_tuple.2.2.1 (str "CATEGORIES:swimmer,biker")
    (str "CATEGORIES:biker,swimmer") (by decide)

/-! ## Claim C10 — bare TAG:value lines crash the generic label parser -/

/-- C10 (confirmed): for any bare line `TAG:value` — no `;`-delimited parameter
segment and no `=` before the first colon — the shared label-and-type parser
used for TEL, EMAIL, LABEL and RELATED raises an out-of-range indexing error
while extracting the type. -/
theorem generic_label_bare_line_index_error (tag v : PyStr)
    (hc : ¬ ':' ∈ tag) (he : ¬ '=' ∈ tag) (hs : ¬ ';' ∈ tag) :
    helper_match_generic_label_and_types (tag ++ ':' :: v) = .error .indexError ∧
    parse_telephone_tag (tag ++ ':' :: v) = .error .indexError ∧
    parse_email_tag (tag ++ ':' :: v) = .error .indexError ∧
    parse_mailing_label_tag (tag ++ ':' :: v) = .error .indexError ∧
    parse_related_tag (tag ++ ':' :: v) = .error .indexError := by
  have h : helper_match_generic_label_and_types (tag ++ ':' :: v) = .error .indexError := by
    unfold helper_match_generic_label_and_types
    rw [splitChar_append ':' tag v hc]
    simp [he, splitChar_not_mem ';' tag hs]
  exact ⟨h, h, h, h, h⟩

/-- C10 witness: the bare telephone line `TEL:+15551234567`. -/
theorem generic_label_bare_line_index_error_witness :
    parse_telephone_tag (str "TEL:+15551234567") = .error .indexError :=
  (generic_label_bare_line_index_error (str "TEL") (str "+15551234567")
    (by decide) (by decide) (by decide)).2.1

/-! ## Claim C7 — N segment-count check -/

/-- C7 (confirmed): an `N` line whose semicolon-split does not have exactly 5
components always raises a per-field error, and with exactly 5 components the
slot-count check never fires (any remaining failure is not the count error). -/
theorem name_tag_count_check (name_line : PyStr) :
    ((splitChar ';' name_line).length ≠ 5 → ∃ e, parse_name_tag name_line = .error e) ∧
    ((splitChar ';' name_line).length = 5 →
      ∀ f r, parse_name_tag name_line ≠ .error (.subfieldCountError f r)) := by
  constructor
  · intro hlen
    unfold parse_name_tag helper_match_subkey_types_and_values
    cases hget : (splitCharAux ':' (splitCharAux ';' name_line).1).2[0]? with
    | none =>
      refine ⟨.indexError, ?_⟩
      simp [splitChar, hget]
    | some x =>
      have hne : ¬ (5 = (splitCharAux ';' name_line).2.length + 1) := by
        simp only [splitChar, List.length_cons] at hlen
        omega
      refine ⟨.subfieldCountError ((splitCharAux ';' name_line).2.length + 1) 5, ?_⟩
      simp [splitChar, hget, hne]
  · intro hlen f r hcontra
    unfold parse_name_tag helper_match_subkey_types_and_values at hcontra
    simp only [splitChar, List.length_cons] at hlen
    cases hget : (splitCharAux ':' (splitCharAux ';' name_line).1).2[0]? with
    | none => simp [splitChar, hget] at hcontra
    | some x => simp [splitChar, hget, hlen] at hcontra

/-- C7 witness: a 2-component `N` line errors; a 5-component line never hits
the count check. -/
theorem name_tag_count_check_witness :
    (∃ e, parse_name_tag (str "N:a;b") = .error e) ∧
    parse_name_tag (str "N:a;b;c;d;e") ≠ .error (.subfieldCountError 3 5) :=
  ⟨(name_tag_count_check (str "N:a;b")).1 (by decide),
   (name_tag_count_check (str "N:a;b;c;d;e")).2 (by decide) 3 5⟩

/-! ## Claim C2 (amended) — general data-URI rule -/

theorem base64_line_not_type (t : PyStr) :
    pyStartsWith (str "base64" ++ t) (str "TYPE") = false := rfl

theorem base64_line_not_mediatype (t : PyStr) :
    pyStartsWith (str "base64" ++ t) (str "MEDIATYPE") = false := rfl

theorem base64_line_starts_base64 (t : PyStr) :
    pyStartsWith (str "base64" ++ t) (str "base64") = true := by
  unfold pyStartsWith
  exact List.isPrefixOf_iff_prefix.2 ⟨t, rfl⟩

/-- C2 (amended): for a multimedia tag in data-URI form (two `;`-segments, the
second starting with `base64`), the parser stores as `tag_mime_type` the last
colon-delimited segment of the tag's own prefix — i.e. the *full* MIME string,
`image/png`, not the bare subtype `png` claimed for the example — and as
`tag_data` the text between the first and second comma of the second segment;
unused slots are absent.  The concrete PHOTO example is included. -/
theorem data_uri_multimedia_shape :
    (∀ s p q c0 c1 : PyStr, ∀ cr : List PyStr,
      splitChar ';' s = [p, q] →
      pyStartsWith q (str "base64") = true →
      splitChar ',' q = c0 :: c1 :: cr →
      (splitChar ':' p).getLast! ≠ [] → c1 ≠ [] →
      parse_multimedia_tag s =
        .ok [(str "tag_data", c1), (str "tag_mime_type", (splitChar ':' p).getLast!)]) ∧
    parse_vcard_line (str "PHOTO:data:image/png;base64,AAAA") =
      .ok [(str "PHOTO", .dict [(str "tag_data", str "AAAA"),
           (str "tag_mime_type", str "image/png")])] := by
  refine ⟨?_, by decide⟩
  intro s p q c0 c1 cr hsplit hb64 hcomma hmime hdata
  obtain ⟨t, rfl⟩ : ∃ t, q = str "base64" ++ t := by
    obtain ⟨t, ht⟩ := List.isPrefixOf_iff_prefix.1 hb64
    exact ⟨t, ht.symm⟩
  have hquad : multimediaQuad s = .ok ([], c1, [], (splitChar ':' p).getLast!) := by
    unfold multimediaQuad
    rw [hsplit]
    simp [base64_line_not_type, base64_line_not_mediatype, base64_line_starts_base64, hcomma]
  unfold parse_multimedia_tag
  rw [hquad]
  simp [helper_match_subkey_types_and_values, multimediaTagList, hdata, hmime]

/-- C2 witness: the general rule applied to the (tag-name-stripped) PHOTO
data-URI line. -/
theorem data_uri_multimedia_shape_witness :
    parse_multimedia_tag (str ":data:image/png;base64,AAAA") =
      .ok [(str "tag_data", str "AAAA"), (str "tag_mime_type", str "image/png")] := by
  have h := data_uri_multimedia_shape.1 (str ":data:image/png;base64,AAAA")
    (str ":data:image/png") (str "base64,AAAA") (str "base64") (str "AAAA") []
    (by decide) (by decide) (by decide) (by decide) (by decide)
  simpa using h

/-! ## Claim C3 (amended) — at most one of tag_data / tag_url -/

theorem multimediaQuad_data_url_excl (s t d u m : PyStr)
    (h : multimediaQuad s = .ok (t, d, u, m)) : d = [] ∨ u = [] := by
  unfold multimediaQuad at h
  repeat' split at h
  all_goals simp_all

theorem mm_dict_data_none (t url m : PyStr) :
    dictGet ((multimediaTagList.zip [t, [], url, m]).filter (fun p => decide (¬ p.2 = [])))
      (str "tag_data") = none := by
  have k1 : ¬ (str "tag_type" = str "tag_data") := by decide
  have k2 : ¬ (str "tag_url" = str "tag_data") := by decide
  have k3 : ¬ (str "tag_mime_type" = str "tag_data") := by decide
  by_cases ht : t = [] <;> by_cases hu : url = [] <;> by_cases hm : m = [] <;>
    simp [multimediaTagList, ht, hu, hm, dictGet, k1, k2, k3]

theorem mm_dict_url_none (t dta m : PyStr) :
    dictGet ((multimediaTagList.zip [t, dta, [], m]).filter (fun p => decide (¬ p.2 = [])))
      (str "tag_url") = none := by
  have k1 : ¬ (str "tag_type" = str "tag_url") := by decide
  have k2 : ¬ (str "tag_data" = str "tag_url") := by decide
  have k3 : ¬ (str "tag_mime_type" = str "tag_url") := by decide
  by_cases ht : t = [] <;> by_cases hd : dta = [] <;> by_cases hm : m = [] <;>
    simp [multimediaTagList, ht, hd, hm, dictGet, k1, k2, k3]

/-- C3 (amended): whenever `parse_multimedia_tag` returns, the mapping contains
*at most* one of `tag_data` / `tag_url` — never both; "exactly one" fails
because both can be absent when the parsed payload or URL is the empty string
(see the counterexample). -/
theorem parse_multimedia_not_both (s : PyStr) (d : List (PyStr × PyStr))
    (h : parse_multimedia_tag s = .ok d) :
    ¬ ((dictGet d (str "tag_data")).isSome = true ∧ (dictGet d (str "tag_url")).isSome = true) := by
  unfold parse_multimedia_tag at h
  cases hq : multimediaQuad s with
  | error e => rw [hq] at h; exact absurd h (by simp)
  | ok quad =>
    obtain ⟨t, dta, url, m⟩ := quad
    rw [hq] at h
    try dsimp only at h
    have hok : helper_match_subkey_types_and_values multimediaTagList [t, dta, url, m] false =
        .ok ((multimediaTagList.zip [t, dta, url, m]).filter (fun p => decide (¬ p.2 = []))) := rfl
    rw [hok, Except.ok.injEq] at h
    subst h
    rcases multimediaQuad_data_url_excl s t dta url m hq with h0 | h0 <;> subst h0
    · rw [mm_dict_data_none]
      simp
    · rw [mm_dict_url_none]
      simp

/-- C3 witness: the exclusivity theorem applied to the parsed PHOTO data-URI
example (which contains `tag_data` and hence no `tag_url`). -/
theorem parse_multimedia_not_both_witness :
    ¬ ((dictGet [(str "tag_data", str "AAAA"), (str "tag_mime_type", str "image/png")]
          (str "tag_data")).isSome = true ∧
       (dictGet [(str "tag_data", str "AAAA"), (str "tag_mime_type", str "image/png")]
          (str "tag_url")).isSome = true) :=
  parse_multimedia_not_both (str ":data:image/png;base64,AAAA")
    [(str "tag_data", str "AAAA"), (str "tag_mime_type", str "image/png")] (by decide)

/-! ## Claim C6 (amended) — extension derivation of the multimedia decoder -/

theorem extractKeysAux_skip (contact : Contact) (base k : PyStr) (ks : List PyStr)
    (h : dictGet contact k = none) :
    extractKeysAux contact base (k :: ks) = extractKeysAux contact base ks := by
  simp [extractKeysAux, h]

theorem extractKeysAux_tail_congr (contact : Contact) (base k : PyStr)
    (ks1 ks2 : List PyStr)
    (h : extractKeysAux contact base ks1 = extractKeysAux contact base ks2) :
    extractKeysAux contact base (k :: ks1) = extractKeysAux contact base (k :: ks2) := by
  simp only [extractKeysAux]
  rw [h]

theorem dictGet_singleton_ne {β : Type} (key k : PyStr) (v : β) (h : ¬ key = k) :
    dictGet [(key, v)] k = none := by
  simp [dictGet, h]

theorem dictGet_singleton_eq {β : Type} (key : PyStr) (v : β) :
    dictGet [(key, v)] key = some v := by
  simp [dictGet]

/-- For a contact holding a single multimedia field, the scan of
`extract_key_multimedia` over all four multimedia keys reduces to the scan
over just that key. -/
theorem extract_single_eq (key : PyStr) (md : List (PyStr × PyStr)) (base : PyStr)
    (hkey : key ∈ advancedKeyNames) :
    extract_key_multimedia [(key, .dict md)] base =
      extractKeysAux [(key, .dict md)] base [key] := by
  have hKEY : ¬ str "PHOTO" = str "KEY" := by decide
  simp only [advancedKeyNames, List.mem_cons, List.not_mem_nil, or_false] at hkey
  rcases hkey with rfl | rfl | rfl | rfl
  · unfold extract_key_multimedia advancedKeyNames
    refine extractKeysAux_tail_congr _ _ _ _ _ ?_
    rw [extractKeysAux_skip _ _ _ _ (dictGet_singleton_ne _ _ _ (by decide)),
      extractKeysAux_skip _ _ _ _ (dictGet_singleton_ne _ _ _ (by decide)),
      extractKeysAux_skip _ _ _ _ (dictGet_singleton_ne _ _ _ (by decide))]
  · unfold extract_key_multimedia advancedKeyNames
    rw [extractKeysAux_skip _ _ _ _ (dictGet_singleton_ne _ _ _ (by decide))]
    refine extractKeysAux_tail_congr _ _ _ _ _ ?_
    rw [extractKeysAux_skip _ _ _ _ (dictGet_singleton_ne _ _ _ (by decide)),
      extractKeysAux_skip _ _ _ _ (dictGet_singleton_ne _ _ _ (by decide))]
  · unfold extract_key_multimedia advancedKeyNames
    rw [extractKeysAux_skip _ _ _ _ (dictGet_singleton_ne _ _ _ (by decide)),
      extractKeysAux_skip _ _ _ _ (dictGet_singleton_ne _ _ _ (by decide))]
    refine extractKeysAux_tail_congr _ _ _ _ _ ?_
    rw [extractKeysAux_skip _ _ _ _ (dictGet_singleton_ne _ _ _ (by decide))]
  · unfold extract_key_multimedia advancedKeyNames
    rw [extractKeysAux_skip _ _ _ _ (dictGet_singleton_ne _ _ _ (by decide)),
      extractKeysAux_skip _ _ _ _ (dictGet_singleton_ne _ _ _ (by decide)),
      extractKeysAux_skip _ _ _ _ (dictGet_singleton_ne _ _ _ (by decide))]

/-- C6 (amended): for a multimedia descriptor handed to the decoder (as the
single multimedia field of a contact): if `tag_type` is present the written
file's extension is `tag_type`; if `tag_type` is absent and `tag_mime_type` is
present, the extension is the slash-segment at index 1 of `tag_mime_type` (the
*second* segment — `mime.split("/")[1]` — not the last one, see the
counterexample); if both are absent the decoder raises the
"cannot determine extension" error and produces no write for that field. -/
theorem extension_derivation (key : PyStr) (md : List (PyStr × PyStr)) (base : PyStr)
    (hkey : key ∈ advancedKeyNames) :
    (∀ t ws, dictGet md (str "tag_type") = some t →
      extract_key_multimedia [(key, .dict md)] base = .ok ws →
      ∃ w, ws = [w] ∧ w.filename = base.filter (fun c => decide (¬ c = '.')) ++ '.' :: t) ∧
    (∀ m s0 s1 : PyStr, ∀ rest : List PyStr, ∀ ws,
      dictGet md (str "tag_type") = none →
      dictGet md (str "tag_mime_type") = some m →
      splitChar '/' m = s0 :: s1 :: rest →
      extract_key_multimedia [(key, .dict md)] base = .ok ws →
      ∃ w, ws = [w] ∧ w.filename = base.filter (fun c => decide (¬ c = '.')) ++ '.' :: s1) ∧
    (dictGet md (str "tag_type") = none → dictGet md (str "tag_mime_type") = none →
      extract_key_multimedia [(key, .dict md)] base = .error (.extensionError key)) := by
  rw [extract_single_eq key md base hkey]
  simp only [extractKeysAux, dictGet_singleton_eq, fvDict]
  refine ⟨?_, ?_, ?_⟩
  · intro t ws h1 h2
    rw [h1] at h2
    cases hu : dictGet md (str "tag_url") with
    | some u =>
      simp [hu] at h2
      exact ⟨_, h2.symm, by simp⟩
    | none =>
      cases hd : dictGet md (str "tag_data") with
      | none => simp [hu, hd] at h2
      | some dta =>
        simp [hu, hd] at h2
        exact ⟨_, h2.symm, by simp⟩
  · intro m s0 s1 rest ws h1 h2 h3 h4
    rw [h1, h2] at h4
    dsimp only at h4
    rw [h3] at h4
    cases hu : dictGet md (str "tag_url") with
    | some u =>
      simp [hu] at h4
      exact ⟨_, h4.symm, by simp⟩
    | none =>
      cases hd : dictGet md (str "tag_data") with
      | none => simp [hu, hd] at h4
      | some dta =>
        simp [hu, hd] at h4
        exact ⟨_, h4.symm, by simp⟩
  · intro h1 h2
    rw [h1, h2]

/-- C6 witness: the `tag_type` branch on a concrete descriptor (dots stripped
from the identifier, extension `jpeg`), and the missing-extension error on a
descriptor with neither `tag_type` nor `tag_mime_type`. -/
theorem extension_derivation_witness :
    (∃ w, [(⟨str "ab.jpeg", false, str "AAAA"⟩ : MediaWrite)] = [w] ∧
      w.filename = (str "a.b").filter (fun c => decide (¬ c = '.')) ++ '.' :: str "jpeg") ∧
    extract_key_multimedia [(str "PHOTO", .dict [(str "x", str "y")])] (str "x") =
      .error (.extensionError (str "PHOTO")) :=
  ⟨(extension_derivation (str "PHOTO")
      [(str "tag_type", str "jpeg"), (str "tag_data", str "AAAA")] (str "a.b")
      (by decide)).1 (str "jpeg") [⟨str "ab.jpeg", false, str "AAAA"⟩]
      (by decide) (by decide),
   (extension_derivation (str "PHOTO") [(str "x", str "y")] (str "x") (by decide)).2.2
      (by decide) (by decide)⟩

/-! ## Claims C4/C5 — error classification of the field parsers -/

theorem except_map_err {α β : Type} (f : α → β) (x : Except PyErr α) (e : PyErr)
    (h : x.map f = .error e) : x = .error e := by
  cases x with
  | error a => simpa [Except.map] using h
  | ok a => simp [Except.map] at h

theorem helper_generic_err (l : PyStr) (e : PyErr)
    (h : helper_match_generic_label_and_types l = .error e) : isStructuralError e = false := by
  unfold helper_match_generic_label_and_types at h
  try dsimp only at h
  repeat' split at h
  all_goals try exact Except.noConfusion h
  all_goals (injection h with h; subst h; rfl)

theorem helper_subkey_err (names vals : List PyStr) (b : Bool) (e : PyErr)
    (h : helper_match_subkey_types_and_values names vals b = .error e) :
    isStructuralError e = false := by
  unfold helper_match_subkey_types_and_values at h
  try dsimp only at h
  split at h
  · next e2 heq =>
    injection h with h
    subst h
    repeat' split at heq
    all_goals try exact Except.noConfusion heq
    all_goals (injection heq with heq; subst heq; rfl)
  · split at h
    · injection h with h; subst h; rfl
    · exact Except.noConfusion h

theorem parse_address_tag_err (l : PyStr) (e : PyErr)
    (h : parse_address_tag l = .error e) : isStructuralError e = false := by
  unfold parse_address_tag at h
  try dsimp only at h
  repeat' split at h
  all_goals try exact Except.noConfusion h
  all_goals (injection h with h; subst h; rfl)

theorem parse_clientpidmap_tag_err (l : PyStr) (e : PyErr)
    (h : parse_clientpidmap_tag l = .error e) : isStructuralError e = false := by
  unfold parse_clientpidmap_tag at h
  try dsimp only at h
  repeat' split at h
  all_goals try exact Except.noConfusion h
  all_goals (injection h with h; subst h; rfl)

theorem parse_geo_tag_err (l : PyStr) (e : PyErr)
    (h : parse_geo_tag l = .error e) : isStructuralError e = false := by
  unfold parse_geo_tag at h
  try dsimp only at h
  repeat' split at h
  all_goals try exact Except.noConfusion h
  all_goals (injection h with h; subst h; rfl)

theorem parse_impp_tag_err (l : PyStr) (e : PyErr)
    (h : parse_instant_messenger_handle_tag l = .error e) : isStructuralError e = false := by
  unfold parse_instant_messenger_handle_tag at h
  try dsimp only at h
  repeat' split at h
  all_goals try exact Except.noConfusion h
  all_goals (injection h with h; subst h; rfl)

theorem parse_member_tag_err (l : PyStr) (e : PyErr)
    (h : parse_member_tag l = .error e) : isStructuralError e = false := by
  unfold parse_member_tag at h
  try dsimp only at h
  repeat' split at h
  all_goals try exact Except.noConfusion h
  all_goals (injection h with h; subst h; rfl)

theorem parse_name_tag_err (l : PyStr) (e : PyErr)
    (h : parse_name_tag l = .error e) : isStructuralError e = false := by
  unfold parse_name_tag at h
  exact helper_subkey_err _ _ _ _ h

theorem parse_organization_tag_err (l : PyStr) (e : PyErr)
    (h : parse_organization_tag l = .error e) : isStructuralError e = false := by
  unfold parse_organization_tag at h
  try dsimp only at h
  split at h
  · repeat' split at h
    all_goals try exact Except.noConfusion h
    all_goals (injection h with h; subst h; rfl)
  · exact helper_subkey_err _ _ _ _ (except_map_err _ _ _ h)

theorem parse_uuid_tag_err (l : PyStr) (e : PyErr)
    (h : parse_uuid_tag l = .error e) : isStructuralError e = false := by
  unfold parse_uuid_tag at h
  try dsimp only at h
  repeat' split at h
  all_goals try exact Except.noConfusion h
  all_goals (injection h with h; subst h; rfl)

theorem multimediaQuad_err (l : PyStr) (e : PyErr)
    (h : multimediaQuad l = .error e) : isStructuralError e = false := by
  unfold multimediaQuad at h
  try dsimp only at h
  repeat' split at h
  all_goals try exact Except.noConfusion h
  all_goals (injection h with h; subst h; rfl)

theorem parse_multimedia_tag_err (l : PyStr) (e : PyErr)
    (h : parse_multimedia_tag l = .error e) : isStructuralError e = false := by
  unfold parse_multimedia_tag at h
  split at h
  · next e2 heq =>
    injection h with h
    subst h
    exact multimediaQuad_err _ _ heq
  · exact helper_subkey_err _ _ _ _ h

theorem fieldParserTable_err (p : PyStr × (PyStr → Except PyErr FieldVal))
    (hp : p ∈ fieldParserTable) (l : PyStr) (e : PyErr)
    (h : p.2 l = .error e) : isStructuralError e = false := by
  simp only [fieldParserTable, List.mem_cons, List.not_mem_nil, or_false] at hp
  rcases hp with rfl | rfl | rfl | rfl | rfl | rfl | rfl | rfl | rfl | rfl | rfl | rfl | rfl
  · exact parse_address_tag_err _ _ (except_map_err _ _ _ h)
  · exact Except.noConfusion h
  · exact parse_clientpidmap_tag_err _ _ (except_map_err _ _ _ h)
  · exact helper_generic_err _ _ (except_map_err _ _ _ h)
  · exact parse_geo_tag_err _ _ (except_map_err _ _ _ h)
  · exact parse_impp_tag_err _ _ (except_map_err _ _ _ h)
  · exact helper_generic_err _ _ (except_map_err _ _ _ h)
  · exact parse_member_tag_err _ _ (except_map_err _ _ _ h)
  · exact parse_name_tag_err _ _ (except_map_err _ _ _ h)
  · exact parse_organization_tag_err _ _ h
  · exact helper_generic_err _ _ (except_map_err _ _ _ h)
  · exact helper_generic_err _ _ (except_map_err _ _ _ h)
  · exact parse_uuid_tag_err _ _ (except_map_err _ _ _ h)

theorem parse_vcard_line_err (l : PyStr) (e : PyErr)
    (h : parse_vcard_line l = .error e) : isStructuralError e = false := by
  unfold parse_vcard_line at h
  split at h
  · exact Except.noConfusion h
  · split at h
    · next p hfind =>
      exact fieldParserTable_err p (List.mem_of_find?_eq_some hfind) l e (except_map_err _ _ _ h)
    · split at h
      · exact parse_multimedia_tag_err _ _ (except_map_err _ _ _ h)
      · exact Except.noConfusion h

theorem extractKeysAux_err (contact : Contact) (base : PyStr) (ks : List PyStr) (e : PyErr)
    (h : extractKeysAux contact base ks = .error e) : isStructuralError e = false := by
  induction ks with
  | nil => exact Except.noConfusion h
  | cons k ks ih =>
    unfold extractKeysAux at h
    try dsimp only at h
    split at h
    · exact ih h
    · split at h
      · next e2 heq =>
        injection h with h
        subst h
        repeat' split at heq
        all_goals try exact Except.noConfusion heq
        all_goals (injection heq with heq; subst heq; rfl)
      · split at h
        · next e2 heq =>
          injection h with h
          subst h
          repeat' split at heq
          all_goals try exact Except.noConfusion heq
          all_goals (injection heq with heq; subst heq; rfl)
        · split at h
          · next e2 heq =>
            injection h with h
            subst h
            exact ih heq
          · exact Except.noConfusion h

theorem generate_multimedia_err (contact : Contact) (od rn : PyStr) (e : PyErr)
    (h : generate_multimedia_of_contact contact od rn = .error e) :
    isStructuralError e = false := by
  unfold generate_multimedia_of_contact extract_key_multimedia at h
  exact extractKeysAux_err _ _ _ _ h

/-! ## Claim C4 — nesting discipline of the assembler -/

theorem markerOf_begin {l : PyStr} (h : pyStrip l = str "BEGIN:VCARD") :
    markerOf l = some true := by
  simp [markerOf, h]

theorem markerOf_end {l : PyStr} (h : pyStrip l = str "END:VCARD") :
    markerOf l = some false := by
  have hne : ¬ (str "END:VCARD" = str "BEGIN:VCARD") := by decide
  simp [markerOf, h, hne]

theorem markerOf_none {l : PyStr} (h1 : ¬ pyStrip l = str "BEGIN:VCARD")
    (h2 : ¬ pyStrip l = str "END:VCARD") : markerOf l = none := by
  simp [markerOf, h1, h2]

theorem markerOf_none_of_no_colon {l : PyStr} (h : ¬ ':' ∈ l) : markerOf l = none := by
  apply markerOf_none
  · intro hb
    exact h (mem_of_mem_pyStrip (by rw [hb]; decide))
  · intro he
    exact h (mem_of_mem_pyStrip (by rw [he]; decide))

theorem not_colon_of_not_foldStops {l : PyStr} (h : foldStops l = false) : ¬ ':' ∈ l := by
  unfold foldStops at h
  simp only [Bool.or_eq_false_iff, decide_eq_false_iff_not] at h
  exact h.2

theorem foldStops_of_strip_end {l : PyStr} (h : pyStrip l = str "END:VCARD") :
    foldStops l = true := by
  have : ':' ∈ l := mem_of_mem_pyStrip (by rw [h]; decide)
  simp [foldStops, this]

theorem markers_cons_none {l : PyStr} {ls : List PyStr} (h : markerOf l = none) :
    markers (l :: ls) = markers ls := by
  simp [markers, List.filterMap_cons, h]

theorem markers_cons_some {l : PyStr} {ls : List PyStr} {b : Bool} (h : markerOf l = some b) :
    markers (l :: ls) = b :: markers ls := by
  simp [markers, List.filterMap_cons, h]

theorem stepNormal_ok_inC (od rn : PyStr) (st st' : LoopState) (l : PyStr)
    (h : stepNormal od rn st l = .ok st') :
    (markerOf l = none ∧ st'.inC = st.inC) ∨
    (markerOf l = some true ∧ st.inC = false ∧ st'.inC = true) ∨
    (markerOf l = some false ∧ st.inC = true ∧ st'.inC = false) := by
  unfold stepNormal at h
  dsimp only at h
  by_cases hb : pyStrip l = str "BEGIN:VCARD"
  · rw [if_pos hb] at h
    split at h
    · exact Except.noConfusion h
    · next hin =>
      injection h with h
      subst h
      exact Or.inr (Or.inl ⟨markerOf_begin hb, by simpa using hin, rfl⟩)
  · rw [if_neg hb] at h
    by_cases he : pyStrip l = str "END:VCARD"
    · rw [if_pos he] at h
      split at h
      · next hin =>
        split at h
        · exact Except.noConfusion h
        · injection h with h
          subst h
          exact Or.inr (Or.inr ⟨markerOf_end he, hin, rfl⟩)
      · exact Except.noConfusion h
    · rw [if_neg he] at h
      split at h
      · split at h
        · injection h with h
          subst h
          exact Or.inl ⟨markerOf_none hb he, rfl⟩
        · split at h
          · exact Except.noConfusion h
          · injection h with h
            subst h
            exact Or.inl ⟨markerOf_none hb he, rfl⟩
      · injection h with h
        subst h
        exact Or.inl ⟨markerOf_none hb he, rfl⟩

theorem stepNormal_err_struct (od rn : PyStr) (st : LoopState) (l : PyStr) (e : PyErr)
    (h : stepNormal od rn st l = .error e) (hs : isStructuralError e = true) :
    (markerOf l = some true ∧ st.inC = true) ∨
    (markerOf l = some false ∧ st.inC = false) := by
  unfold stepNormal at h
  dsimp only at h
  by_cases hb : pyStrip l = str "BEGIN:VCARD"
  · rw [if_pos hb] at h
    split at h
    · next hin =>
      exact Or.inl ⟨markerOf_begin hb, hin⟩
    · exact Except.noConfusion h
  · rw [if_neg hb] at h
    by_cases he : pyStrip l = str "END:VCARD"
    · rw [if_pos he] at h
      split at h
      · split at h
        · next e2 heq =>
          injection h with h
          subst h
          split at heq
          · simp [generate_multimedia_err _ _ _ _ (except_map_err _ _ _ heq)] at hs
          · exact Except.noConfusion heq
        · exact Except.noConfusion h
      · next hin =>
        injection h with h
        subst h
        exact Or.inr ⟨markerOf_end he, by simpa using hin⟩
    · rw [if_neg he] at h
      split at h
      · split at h
        · exact Except.noConfusion h
        · split at h
          · next e2 heq =>
            injection h with h
            subst h
            simp [parse_vcard_line_err _ _ heq] at hs
          · exact Except.noConfusion h
      · exact Except.noConfusion h

theorem stepLine_ok_inC (od rn : PyStr) (st st' : LoopState) (l : PyStr)
    (h : stepLine od rn st l = .ok st') :
    (markerOf l = none ∧ st'.inC = st.inC) ∨
    (markerOf l = some true ∧ st.inC = false ∧ st'.inC = true) ∨
    (markerOf l = some false ∧ st.inC = true ∧ st'.inC = false) := by
  unfold stepLine at h
  split at h
  · split at h
    · split at h
      · exact Except.noConfusion h
      · simpa using stepNormal_ok_inC _ _ _ _ _ h
    · next hf =>
      injection h with h
      subst h
      exact Or.inl ⟨markerOf_none_of_no_colon (not_colon_of_not_foldStops (by simpa using hf)), rfl⟩
  · exact stepNormal_ok_inC _ _ _ _ _ h

theorem stepLine_err_struct (od rn : PyStr) (st : LoopState) (l : PyStr) (e : PyErr)
    (h : stepLine od rn st l = .error e) (hs : isStructuralError e = true) :
    (markerOf l = some true ∧ st.inC = true) ∨
    (markerOf l = some false ∧ st.inC = false) := by
  unfold stepLine at h
  split at h
  · split at h
    · split at h
      · next e2 heq =>
        injection h with h
        subst h
        simp [parse_vcard_line_err _ _ heq] at hs
      · simpa using stepNormal_err_struct _ _ _ _ _ h hs
    · exact Except.noConfusion h
  · exact stepNormal_err_struct _ _ _ _ _ h hs

theorem vcfLoop_ok_nest (od rn : PyStr) (lines : List PyStr) :
    ∀ (st : LoopState) (cs : List Contact), vcfLoop od rn st lines = .ok cs →
      nestOK st.inC (markers lines) = true := by
  induction lines with
  | nil =>
    intro st cs h
    unfold vcfLoop at h
    split at h
    · split at h
      · exact Except.noConfusion h
      · split at h
        · exact Except.noConfusion h
        · next hin =>
          have hfalse : st.inC = false := by simpa using hin
          rw [hfalse]
          rfl
    · split at h
      · exact Except.noConfusion h
      · next hin =>
        have hfalse : st.inC = false := by simpa using hin
        rw [hfalse]
        rfl
  | cons l ls ih =>
    intro st cs h
    unfold vcfLoop at h
    split at h
    · exact Except.noConfusion h
    · next st' hstep =>
      have hnext := ih st' cs h
      rcases stepLine_ok_inC _ _ _ _ _ hstep with ⟨hm, hinc⟩ | ⟨hm, h1, h2⟩ | ⟨hm, h1, h2⟩
      · rw [markers_cons_none hm, ← hinc]
        exact hnext
      · rw [markers_cons_some hm, h1]
        rw [h2] at hnext
        simpa [nestOK] using hnext
      · rw [markers_cons_some hm, h1]
        rw [h2] at hnext
        simpa [nestOK] using hnext

theorem vcfLoop_err_nest (od rn : PyStr) (lines : List PyStr) :
    ∀ (st : LoopState) (e : PyErr), vcfLoop od rn st lines = .error e →
      isStructuralError e = true → nestOK st.inC (markers lines) = false := by
  induction lines with
  | nil =>
    intro st e h hs
    unfold vcfLoop at h
    split at h
    · split at h
      · next e2 heq =>
        injection h with h
        subst h
        simp [parse_vcard_line_err _ _ heq] at hs
      · split at h
        · next hin =>
          rw [hin]
          rfl
        · exact Except.noConfusion h
    · split at h
      · next hin =>
        rw [hin]
        rfl
      · exact Except.noConfusion h
  | cons l ls ih =>
    intro st e h hs
    unfold vcfLoop at h
    split at h
    · next e2 heq =>
      injection h with h
      subst h
      rcases stepLine_err_struct _ _ _ _ _ heq hs with ⟨hm, h1⟩ | ⟨hm, h1⟩
      · rw [markers_cons_some hm, h1]
        simp [nestOK]
      · rw [markers_cons_some hm, h1]
        simp [nestOK]
    · next st' hstep =>
      have hnext := ih st' e h hs
      rcases stepLine_ok_inC _ _ _ _ _ hstep with ⟨hm, hinc⟩ | ⟨hm, h1, h2⟩ | ⟨hm, h1, h2⟩
      · rw [markers_cons_none hm, ← hinc]
        exact hnext
      · rw [markers_cons_some hm, h1]
        rw [h2] at hnext
        simpa [nestOK] using hnext
      · rw [markers_cons_some hm, h1]
        rw [h2] at hnext
        simpa [nestOK] using hnext

/-- C4 (confirmed): for a file whose per-field parses and multimedia
extractions do not themselves fail (hypothesis `H`: every raised error is
structural), the assembler raises a fatal structural error exactly when the
depth-1 `BEGIN:VCARD`/`END:VCARD` nesting is violated — the marker sequence
fails the alternating depth-1 check `nestOK`, whose failure cases are
precisely: `BEGIN:VCARD` while inside a record, `END:VCARD` while outside,
and end of file while inside.  (Without `H`, the forward direction still
holds: a structural error is only ever raised on ill-nested files.) -/
theorem assembler_nesting_errors (od rn : PyStr) (lines : List PyStr)
    (H : ∀ e, parseVcfFile od rn lines = .error e → isStructuralError e = true) :
    (∃ e, parseVcfFile od rn lines = .error e ∧ isStructuralError e = true) ↔
      nestOK false (markers lines) = false := by
  constructor
  · rintro ⟨e, he, hs⟩
    exact vcfLoop_err_nest od rn lines _ e he hs
  · intro hn
    cases hres : parseVcfFile od rn lines with
    | ok cs =>
      have hok := vcfLoop_ok_nest od rn lines _ cs hres
      rw [hn] at hok
      exact Bool.noConfusion hok
    | error e => exact ⟨e, rfl, H e hres⟩

/-- C4 witness: a file with two consecutive `BEGIN:VCARD` lines is ill-nested
and the assembler indeed raises a structural error on it. -/
theorem assembler_nesting_errors_witness :
    ∃ e, parseVcfFile [] [] [str "BEGIN:VCARD", str "BEGIN:VCARD"] = .error e ∧
      isStructuralError e = true := by
  refine (assembler_nesting_errors [] [] _ ?_).mpr (by decide)
  intro e h
  have h0 : parseVcfFile [] [] [str "BEGIN:VCARD", str "BEGIN:VCARD"] =
      .error PyErr.beginInsideRecord := by decide
  rw [h0] at h
  injection h with h
  subst h
  rfl

/-! ## Claim C5 — well-formed files yield one contact per record, in order -/

theorem markerOf_none_elim {l : PyStr} (h : markerOf l = none) :
    ¬ pyStrip l = str "BEGIN:VCARD" ∧ ¬ pyStrip l = str "END:VCARD" := by
  refine ⟨fun hx => ?_, fun hx => ?_⟩
  · rw [markerOf_begin hx] at h
    exact Option.noConfusion h
  · rw [markerOf_end hx] at h
    exact Option.noConfusion h

theorem vcfLoop_cons_ok (od rn : PyStr) (st st' : LoopState) (l : PyStr) (ls : List PyStr)
    (h : stepLine od rn st l = .ok st') :
    vcfLoop od rn st (l :: ls) = vcfLoop od rn st' ls := by
  conv_lhs => rw [vcfLoop]
  rw [h]

theorem vcfLoop_cons_err (od rn : PyStr) (st : LoopState) (l : PyStr) (ls : List PyStr)
    (e : PyErr) (h : stepLine od rn st l = .error e) :
    vcfLoop od rn st (l :: ls) = .error e := by
  conv_lhs => rw [vcfLoop]
  rw [h]

theorem stepNormal_body (od rn : PyStr) (p : Option PyStr) (pb : Option PyStr) (hm : Bool)
    (cur : Contact) (acc : List Contact) (l : PyStr) (hmk : markerOf l = none) :
    stepNormal od rn ⟨p, true, hm, cur, acc⟩ l =
      (bodyStepNormal ⟨pb, hm, cur⟩ l).map
        (fun b => ⟨b.pending, true, b.hm, b.cur, acc⟩) := by
  rcases markerOf_none_elim hmk with ⟨hb, he⟩
  unfold stepNormal bodyStepNormal
  dsimp only
  rw [if_neg hb, if_neg he]
  cases hmm2 : advancedKeyNames.any (fun key => pyStartsWith l key) with
  | true => simp only [hmm2, if_true, Except.map]
  | false =>
    simp only [hmm2, Bool.false_eq_true, if_false]
    cases hp : parse_vcard_line (pyStrip l) <;> simp [hp, Except.map]

theorem stepLine_body (od rn : PyStr) (p : Option PyStr) (hm : Bool) (cur : Contact)
    (acc : List Contact) (l : PyStr) (hmk : markerOf l = none) :
    stepLine od rn ⟨p, true, hm, cur, acc⟩ l =
      (bodyStep ⟨p, hm, cur⟩ l).map (fun b => ⟨b.pending, true, b.hm, b.cur, acc⟩) := by
  cases p with
  | none =>
    unfold stepLine bodyStep
    dsimp only
    exact stepNormal_body od rn none none hm cur acc l hmk
  | some mmAcc =>
    unfold stepLine bodyStep
    dsimp only
    cases hf : foldStops l with
    | false => simp [hf, Except.map]
    | true =>
      simp only [hf, if_true]
      cases hp : parse_vcard_line (pyStrip mmAcc) with
      | error e => simp [hp, Except.map]
      | ok info =>
        simp only [hp]
        exact stepNormal_body od rn none none hm (dictUpdate cur info) acc l hmk

theorem stepLine_end (od rn : PyStr) (p : Option PyStr) (hm : Bool) (cur : Contact)
    (acc : List Contact) (le : PyStr) (hle : pyStrip le = str "END:VCARD") :
    stepLine od rn ⟨p, true, hm, cur, acc⟩ le =
      (finalizeBody od rn ⟨p, hm, cur⟩).map
        (fun c => ⟨none, false, false, [], acc ++ [c]⟩) := by
  have hb : ¬ pyStrip le = str "BEGIN:VCARD" := by rw [hle]; decide
  cases p with
  | none =>
    unfold stepLine finalizeBody stepNormal
    dsimp only
    rw [if_neg hb, if_pos hle]
    cases hx : (if hm = true then
        (generate_multimedia_of_contact cur od rn).map (fun _ => ()) else .ok ()) with
    | error e => simp [hx, Except.map]
    | ok u => simp [hx, Except.map]
  | some mmAcc =>
    unfold stepLine finalizeBody
    dsimp only
    rw [if_pos (foldStops_of_strip_end hle)]
    cases hp : parse_vcard_line (pyStrip mmAcc) with
    | error e => simp [hp, Except.map]
    | ok info =>
      simp only [hp]
      unfold stepNormal
      dsimp only
      rw [if_neg hb, if_pos hle]
      cases hx : (if hm = true then
          (generate_multimedia_of_contact (dictUpdate cur info) od rn).map (fun _ => ())
        else .ok ()) with
      | error e => simp [hx, Except.map]
      | ok u => simp [hx, Except.map]

theorem vcfLoop_body_decomp (od rn : PyStr) (le : PyStr) (hle : pyStrip le = str "END:VCARD")
    (ls : List PyStr) :
    ∀ (body : List PyStr), (∀ x ∈ body, markerOf x = none) →
    ∀ (b : BodyState) (acc : List Contact),
    vcfLoop od rn ⟨b.pending, true, b.hm, b.cur, acc⟩ (body ++ le :: ls) =
      (match (match bodyRun b body with
              | Except.error e => (Except.error e : Except PyErr Contact)
              | Except.ok b2 => finalizeBody od rn b2) with
       | Except.error e => Except.error e
       | Except.ok c => vcfLoop od rn ⟨none, false, false, [], acc ++ [c]⟩ ls) := by
  intro body
  induction body with
  | nil =>
    intro _ b acc
    show vcfLoop od rn ⟨b.pending, true, b.hm, b.cur, acc⟩ (le :: ls) = _
    cases hf : finalizeBody od rn b with
    | error e =>
      rw [vcfLoop_cons_err od rn _ le ls e
        (by rw [stepLine_end od rn b.pending b.hm b.cur acc le hle, hf]; rfl)]
      simp [bodyRun, hf]
    | ok c =>
      rw [vcfLoop_cons_ok od rn _ _ le ls
        (by rw [stepLine_end od rn b.pending b.hm b.cur acc le hle, hf]; rfl)]
      simp [bodyRun, hf]
  | cons l body ih =>
    intro hbody b acc
    have hl : markerOf l = none := hbody l (List.mem_cons_self l body)
    show vcfLoop od rn ⟨b.pending, true, b.hm, b.cur, acc⟩ (l :: (body ++ le :: ls)) = _
    cases hb : bodyStep b l with
    | error e =>
      rw [vcfLoop_cons_err od rn _ l _ e
        (by rw [stepLine_body od rn b.pending b.hm b.cur acc l hl, hb]; rfl)]
      have hrun : bodyRun b (l :: body) = Except.error e := by
        conv_lhs => rw [bodyRun]
        rw [hb]
      rw [hrun]
    | ok b2 =>
      rw [vcfLoop_cons_ok od rn _ _ l _
        (by rw [stepLine_body od rn b.pending b.hm b.cur acc l hl, hb]; rfl)]
      rw [ih (fun x hx => hbody x (List.mem_cons_of_mem l hx)) b2 acc]
      have hrun : bodyRun b (l :: body) = bodyRun b2 body := by
        conv_lhs => rw [bodyRun]
        rw [hb]
      rw [hrun]

theorem assembleAll_length (od rn : PyStr) :
    ∀ (rs : List (List PyStr)) (cs : List Contact),
    assembleAll od rn rs = .ok cs → cs.length = rs.length := by
  intro rs
  induction rs with
  | nil =>
    intro cs h
    injection h with h
    subst h
    rfl
  | cons r rs ih =>
    intro cs h
    unfold assembleAll at h
    split at h
    · exact Except.noConfusion h
    · split at h
      · exact Except.noConfusion h
      · next cs2 heq =>
        injection h with h
        subst h
        simp [ih cs2 heq]

theorem vcfLoop_fileShape (od rn : PyStr) (lines : List PyStr)
    (records : List (List PyStr)) (hshape : FileShape lines records) :
    ∀ (cs : List Contact) (acc : List Contact),
    assembleAll od rn records = .ok cs →
    vcfLoop od rn ⟨none, false, false, [], acc⟩ lines = .ok (acc ++ cs) := by
  induction hshape with
  | nil =>
    intro cs acc hall
    injection hall with hall
    subst hall
    simp [vcfLoop]
  | junk l ls rs hl hsh ih =>
    intro cs acc hall
    have hstep : stepLine od rn ⟨none, false, false, [], acc⟩ l =
        .ok ⟨none, false, false, [], acc⟩ := by
      rcases markerOf_none_elim hl with ⟨hb, he⟩
      unfold stepLine stepNormal
      dsimp only
      rw [if_neg hb, if_neg he]
      rfl
    rw [vcfLoop_cons_ok od rn _ _ l ls hstep]
    exact ih cs acc hall
  | record lb body le ls rs hb he hbody hsh ih =>
    intro cs acc hall
    unfold assembleAll at hall
    split at hall
    · exact Except.noConfusion hall
    · next c hrec =>
      split at hall
      · exact Except.noConfusion hall
      · next cs2 hrest =>
        injection hall with hall
        subst hall
        have hstep : stepLine od rn ⟨none, false, false, [], acc⟩ lb =
            .ok ⟨none, true, false, [], acc⟩ := by
          unfold stepLine stepNormal
          dsimp only
          rw [if_pos hb]
          rfl
        rw [vcfLoop_cons_ok od rn _ _ lb _ hstep]
        have hdecomp := vcfLoop_body_decomp od rn le he ls body hbody ⟨none, false, []⟩ acc
        rw [show (⟨none, true, false, [], acc⟩ : LoopState) =
          ⟨(⟨none, false, []⟩ : BodyState).pending, true, (⟨none, false, []⟩ : BodyState).hm,
           (⟨none, false, []⟩ : BodyState).cur, acc⟩ from rfl, hdecomp]
        have hrec2 : (match bodyRun ⟨none, false, []⟩ body with
            | Except.error e => (Except.error e : Except PyErr Contact)
            | Except.ok b2 => finalizeBody od rn b2) = .ok c := hrec
        rw [hrec2]
        dsimp only
        rw [ih cs2 (acc ++ [c]) hrest]
        simp

/-- C5 (confirmed): a well-formed vCard file containing N properly delimited
`BEGIN:VCARD`/`END:VCARD` records (with arbitrary non-marker junk outside the
records), all of whose records assemble without a per-field or multimedia
error, yields exactly the N assembled contact records in file order: the
assembler's output equals the per-record assembly of the records list. -/
theorem well_formed_yields_records (od rn : PyStr) (lines : List PyStr)
    (records : List (List PyStr)) (cs : List Contact)
    (hshape : FileShape lines records)
    (hasm : assembleAll od rn records = .ok cs) :
    parseVcfFile od rn lines = .ok cs ∧ cs.length = records.length := by
  refine ⟨?_, assembleAll_length od rn records cs hasm⟩
  have h := vcfLoop_fileShape od rn lines records hshape cs [] hasm
  simpa [parseVcfFile] using h

/-- C5 witness: a file with junk, one record holding an `FN` field and one
empty record yields exactly those two assembled contacts in order. -/
theorem well_formed_yields_records_witness :
    parseVcfFile [] [] [str "x", str "BEGIN:VCARD", str "FN:Ann", str "END:VCARD",
        str "BEGIN:VCARD", str "END:VCARD"] =
      .ok [[(str "FN", .s (str "Ann"))], []] ∧
    ([[(str "FN", FieldVal.s (str "Ann"))], []] : List Contact).length =
      ([[str "FN:Ann"], []] : List (List PyStr)).length :=
  well_formed_yields_records [] []
    [str "x", str "BEGIN:VCARD", str "FN:Ann", str "END:VCARD",
     str "BEGIN:VCARD", str "END:VCARD"]
    [[str "FN:Ann"], []] [[(str "FN", .s (str "Ann"))], []]
    (FileShape.junk (str "x") _ _ (by decide)
      (FileShape.record (str "BEGIN:VCARD") [str "FN:Ann"] (str "END:VCARD") _ _
        (by decide) (by decide) (by decide)
        (FileShape.record (str "BEGIN:VCARD") [] (str "END:VCARD") [] []
          (by decide) (by decide) (by decide) FileShape.nil)))
    (by decide)
